import Mathlib

/-!
Shallow embedding of the VWisper frontend core:

* `src/src/components/WaveWindow.tsx` — the `BubbleWindow` component's
  session state machine: backend-event listeners, the `setTimeout` chains
  they schedule, and the `hide_wave_window` side effect.
* `src/src/hooks/use-update.ts` — `UpdateManager.checkForUpdates`, the
  deduplicated update-check cache with cooldown.
* `src/src/App.tsx` — the audio-bar scaling in the `audio-data` listener.

Machine-level floats are modelled as `ℚ`; wall-clock milliseconds as `ℕ`.
Timers are modelled with absolute deadlines and fire earliest-deadline
first (FIFO on ties), matching the single-threaded JS event loop.
-/

/-- TypeScript `interface AudioData` with `samples: number[]` and
`volume: number` (WaveWindow.tsx lines 5–8). -/
structure AudioData where
  samples : List ℚ
  volume : ℚ
deriving DecidableEq, Repr

/-- The initial `useState<AudioData>({ samples: [], volume: 0 })` value,
also stored by the reset paths. -/
def emptyAudio : AudioData := ⟨[], 0⟩

/-- The union type `ProcessingState` of WaveWindow.tsx line 10, one
constructor per string literal: idle, recording, expanding, processing,
completed, error, leaving. -/
inductive ProcessingState
  | idle | recording | expanding | processing | completed | error | leaving
deriving DecidableEq, Repr

/-- The pending `setTimeout` callbacks that the WaveWindow listeners can
schedule, one constructor per `setTimeout` call site:
* `expandToProcessing`: the 300 ms callback of `expand-for-processing`
  (line 64), which sets the state to `processing`;
* `completedToLeaving`: the 1500 ms callback of `transcription-completed`
  (line 81), which sets `leaving` and schedules `completedHide`;
* `completedHide`: its nested 400 ms callback (line 85), which invokes
  `hide_wave_window`, resets the state to `idle`, clears the
  audio-receiving flag and empties the audio frame;
* `errorToLeaving`: the 2000 ms callback of `transcription-error`
  (line 111), which sets `leaving` and schedules `errorHide`;
* `errorHide`: its nested 400 ms callback (line 114), which invokes
  `hide_wave_window` and resets the state to `idle` only. -/
inductive TimerAction
  | expandToProcessing
  | completedToLeaving
  | completedHide
  | errorToLeaving
  | errorHide
deriving DecidableEq, Repr

/-- The backend events the `BubbleWindow` effect registers listeners for
(WaveWindow.tsx lines 46–121), plus `transcriptionCancelled`, an event
named by the spec for which the effect registers no listener. -/
inductive WaveEvent
  | audioData (d : AudioData)
  | recordingStarted
  | recordingStopped
  | expandForProcessing
  | transcriptionStarted
  | transcriptionCompleted
  | transcriptionError
  | waveReset
  | transcriptionCancelled
deriving DecidableEq, Repr

/-- The observable configuration of one `BubbleWindow` instance: current
wall-clock time in ms, the three React state fields, the pending
`setTimeout` callbacks as (absolute deadline, action) pairs in
registration order, and a counter of `invoke('hide_wave_window')` calls. -/
structure Sys where
  now : ℕ
  state : ProcessingState
  isReceivingAudio : Bool
  audioData : AudioData
  timers : List (ℕ × TimerAction)
  hideCount : ℕ
deriving DecidableEq, Repr

/-- The component's initial configuration at mount time 0. -/
def initSys : Sys :=
  { now := 0, state := .idle, isReceivingAudio := false,
    audioData := emptyAudio, timers := [], hideCount := 0 }

/-- Run one fired `setTimeout` callback body (see `TimerAction`). -/
def fireAction : TimerAction → Sys → Sys
  | .expandToProcessing, s => { s with state := .processing }
  | .completedToLeaving, s =>
      { s with state := .leaving,
               timers := s.timers ++ [(s.now + 400, .completedHide)] }
  | .completedHide, s =>
      { s with hideCount := s.hideCount + 1, state := .idle,
               isReceivingAudio := false, audioData := emptyAudio }
  | .errorToLeaving, s =>
      { s with state := .leaving,
               timers := s.timers ++ [(s.now + 400, .errorHide)] }
  | .errorHide, s =>
      { s with hideCount := s.hideCount + 1, state := .idle }

/-- Deliver one backend event to the registered listeners
(WaveWindow.tsx lines 46–121). Each branch is the body of the
corresponding `listen` callback; `waveReset` (lines 97–101) resets the
three state fields and cancels nothing; `transcriptionCancelled` has no
listener and is ignored. -/
def handleEvent : WaveEvent → Sys → Sys
  | .audioData d, s => { s with audioData := d, isReceivingAudio := true }
  | .recordingStarted, s => { s with state := .recording }
  | .recordingStopped, s => { s with isReceivingAudio := false }
  | .expandForProcessing, s =>
      { s with state := .expanding,
               timers := s.timers ++ [(s.now + 300, .expandToProcessing)] }
  | .transcriptionStarted, s => { s with state := .processing }
  | .transcriptionCompleted, s =>
      { s with state := .completed,
               timers := s.timers ++ [(s.now + 1500, .completedToLeaving)] }
  | .transcriptionError, s =>
      { s with state := .error,
               timers := s.timers ++ [(s.now + 2000, .errorToLeaving)] }
  | .waveReset, s =>
      { s with state := .idle, isReceivingAudio := false,
               audioData := emptyAudio }
  | .transcriptionCancelled, s => s

/-- The earliest-deadline timer due by time `t` (first-registered wins
ties), or `none` when no pending timer is due. -/
def nextDue (t : ℕ) (ts : List (ℕ × TimerAction)) :
    Option (ℕ × TimerAction) :=
  ts.foldl
    (fun acc x =>
      if x.1 ≤ t then
        match acc with
        | none => some x
        | some a => if x.1 < a.1 then some x else some a
      else acc)
    none

/-- Let wall-clock time advance to `t` with no further backend event:
timers due by `t` fire one at a time in deadline order (their callbacks
may schedule further timers). `fuel` bounds the number of firings; every
scenario below uses ample fuel. -/
def advance (fuel : ℕ) (t : ℕ) (s : Sys) : Sys :=
  match fuel with
  | 0 => { s with now := t }
  | fuel + 1 =>
      match nextDue t s.timers with
      | none => { s with now := t }
      | some x =>
          advance fuel t
            (fireAction x.2 { s with now := x.1, timers := s.timers.erase x })

/-! ## `src/src/hooks/use-update.ts` — the update-check cache -/

/-- TypeScript `interface UpdateInfo` (use-update.ts lines 4–9). -/
structure UpdateInfo where
  current_version : String
  latest_version : String
  has_update : Bool
  download_url : Option String
deriving DecidableEq, Repr

/-- The private fields of the `UpdateManager` singleton
(use-update.ts lines 16–21). -/
structure UpdateManager where
  checkInProgress : Bool
  lastCheckTime : ℕ
  cachedUpdateInfo : Option UpdateInfo
deriving DecidableEq, Repr

/-- The constant `CHECK_COOLDOWN = 5000` ms (use-update.ts line 20). -/
def CHECK_COOLDOWN : ℕ := 5000

/-- The state of a freshly constructed `UpdateManager`
(`checkInProgress = false`, `lastCheckTime = 0`, no cached value). -/
def UpdateManager.initial : UpdateManager :=
  { checkInProgress := false, lastCheckTime := 0, cachedUpdateInfo := none }

/-- The value `checkForUpdates` resolves or rejects with:
`ok` a returned `UpdateInfo`, `inProgressError` the thrown
`Error("Update check already in progress")`, `probeError` a rejection
propagated from the `invoke("check_for_updates")` probe. -/
inductive CheckOutcome
  | ok (info : UpdateInfo)
  | inProgressError
  | probeError (e : String)
deriving DecidableEq, Repr

/-- Method `UpdateManager.checkForUpdates` (use-update.ts lines 32–58), as a
function of the manager state, `Date.now()`, and the result the network
probe would deliver if issued. Returns the outcome, the updated manager
state, and whether `invoke("check_for_updates")` was issued. -/
def UpdateManager.checkForUpdates (s : UpdateManager) (now : ℕ)
    (probe : Except String UpdateInfo) :
    CheckOutcome × UpdateManager × Bool :=
  if s.checkInProgress then
    match s.cachedUpdateInfo with
    | some c => (.ok c, s, false)
    | none => (.inProgressError, s, false)
  else if h : now - s.lastCheckTime < CHECK_COOLDOWN ∧ s.cachedUpdateInfo.isSome
  then
    (.ok (s.cachedUpdateInfo.get h.2), s, false)
  else
    match probe with
    | .ok r =>
        (.ok r,
         { checkInProgress := false, lastCheckTime := now,
           cachedUpdateInfo := some r }, true)
    | .error e =>
        (.probeError e,
         { s with checkInProgress := false, lastCheckTime := now }, true)

/-! ## `src/src/App.tsx` — audio-bar scaling -/

/-- The constant `BAR_COUNT = 10` (App.tsx line 17). -/
def BAR_COUNT : ℕ := 10

/-- The constant `BAR_MIN_HEIGHT = 5` px (App.tsx line 18). -/
def BAR_MIN_HEIGHT : ℚ := 5

/-- The constant `BAR_MAX_HEIGHT = 20` px (App.tsx line 19). -/
def BAR_MAX_HEIGHT : ℚ := 20

/-- The constant `SENSITIVITY = 5.0` (App.tsx line 109). -/
def SENSITIVITY : ℚ := 5

/-- The per-level scaling of the `audio-data` listener
(App.tsx lines 121–126): `min(level * SENSITIVITY, 1.0)` with a
below-`0.05` deadband snapping to `BAR_MIN_HEIGHT`. -/
def scaleLevel (level : ℚ) : ℚ :=
  let sensitiveLevel := min (level * SENSITIVITY) 1
  if sensitiveLevel < 1/20 then BAR_MIN_HEIGHT
  else BAR_MIN_HEIGHT + sensitiveLevel * (BAR_MAX_HEIGHT - BAR_MIN_HEIGHT)

/-- The slice `samples.slice(0, BAR_COUNT)` followed by
`while (mapped.length < BAR_COUNT) mapped.push(0)` (App.tsx lines 118–119). -/
def padSamples (samples : List ℚ) : List ℚ :=
  samples.take BAR_COUNT ++
    List.replicate (BAR_COUNT - (samples.take BAR_COUNT).length) 0

/-- The bar-height list `scaled` computed by the `audio-data` listener
(App.tsx lines 118–126) for a nonempty `samples` payload. -/
def scaledBars (samples : List ℚ) : List ℚ :=
  (padSamples samples).map scaleLevel

/-- The bar-height formula as the spec words it, for comparison with
`scaleLevel`: `BAR_MIN + clamp(a * SENSITIVITY, 0, 1) * (BAR_MAX - BAR_MIN)`,
except that an amplitude whose sensitivity-scaled value is below `0.05`
yields exactly `BAR_MIN`. -/
def specBarHeight (a : ℚ) : ℚ :=
  if a * SENSITIVITY < 1/20 then BAR_MIN_HEIGHT
  else BAR_MIN_HEIGHT + max 0 (min (a * SENSITIVITY) 1) *
    (BAR_MAX_HEIGHT - BAR_MIN_HEIGHT)

/-- A concrete `UpdateInfo` value used to instantiate theorems with
hypotheses at concrete inputs. -/
def sampleInfo : UpdateInfo :=
  ⟨"1.0.4", "1.0.5", true, none⟩

/-- A second concrete `UpdateInfo` value, distinct from `sampleInfo`. -/
def sampleInfo2 : UpdateInfo :=
  ⟨"1.0.4", "1.0.6", true, none⟩

/-- A concrete probe-rejection message used to instantiate theorems at
concrete inputs. -/
def sampleErr : String :=
  "network unreachable"

/-! ## Theorems -/

set_option maxRecDepth 32000

/-- C1: evaluation of the code at the failing input. The claim says a
`wave-reset` from any state yields `Idle` with zero pending timers and
that no timer scheduled before the reset later fires a state change or a
`hide_wave_window` command. In the code the `wave-reset` handler only
resets the three state fields and cancels nothing: after
`expand-for-processing` the 300 ms timer survives the reset and moves the
state from `idle` back to `processing`, and after
`transcription-completed` the surviving 1500/400 ms chain still invokes
`hide_wave_window` once. -/
theorem waveReset_leaves_timers_pending :
    (handleEvent .waveReset (handleEvent .expandForProcessing initSys)).state
      = .idle ∧
    (handleEvent .waveReset (handleEvent .expandForProcessing initSys)).timers
      = [(300, .expandToProcessing)] ∧
    (advance 8 300
        (handleEvent .waveReset
          (handleEvent .expandForProcessing initSys))).state
      = .processing ∧
    (advance 8 1900
        (handleEvent .waveReset
          (handleEvent .transcriptionCompleted initSys))).hideCount = 1 := by
  refine ⟨rfl, rfl, ?_, ?_⟩ <;>
    simp [advance, nextDue, fireAction, handleEvent, initSys, emptyAudio,
      List.erase]

/-- C2: from any configuration with no pending timer, delivering
`transcription-completed` puts the machine in `leaving` once 1500 ms have
elapsed and in `idle` once 1500 + 400 ms have, with `hide_wave_window`
invoked exactly once and no timer left; delivering `transcription-error`
likewise yields `leaving` after 2000 ms and `idle` after 2000 + 400 ms
with exactly one `hide_wave_window` invocation. -/
theorem completed_error_timer_chains (st : ProcessingState) (b : Bool)
    (d : AudioData) :
    let base : Sys := { now := 0, state := st, isReceivingAudio := b,
                        audioData := d, timers := [], hideCount := 0 }
    ((advance 8 1500 (handleEvent .transcriptionCompleted base)).state
        = .leaving ∧
      (advance 8 1900 (handleEvent .transcriptionCompleted base)).state
        = .idle ∧
      (advance 8 1900 (handleEvent .transcriptionCompleted base)).hideCount
        = 1 ∧
      (advance 8 1900 (handleEvent .transcriptionCompleted base)).timers
        = []) ∧
    ((advance 8 2000 (handleEvent .transcriptionError base)).state
        = .leaving ∧
      (advance 8 2400 (handleEvent .transcriptionError base)).state
        = .idle ∧
      (advance 8 2400 (handleEvent .transcriptionError base)).hideCount
        = 1 ∧
      (advance 8 2400 (handleEvent .transcriptionError base)).timers
        = []) := by
  refine ⟨⟨?_, ?_, ?_, ?_⟩, ?_, ?_, ?_, ?_⟩ <;>
    simp [advance, nextDue, fireAction, handleEvent, emptyAudio, List.erase]

/-- C5 counterexample: a `transcription-completed` delivered while the
machine is in `idle` with nothing pending is not a no-op — the state
leaves `idle`, a timer is scheduled, and the surviving chain invokes
`hide_wave_window`; likewise `transcription-error` leaves `idle`. -/
theorem completed_in_idle_not_noop :
    (handleEvent .transcriptionCompleted initSys).state ≠ .idle ∧
    (handleEvent .transcriptionCompleted initSys).timers ≠ [] ∧
    (advance 8 1900 (handleEvent .transcriptionCompleted initSys)).hideCount
      = 1 ∧
    (handleEvent .transcriptionError initSys).state ≠ .idle := by
  refine ⟨by simp [handleEvent, initSys], by simp [handleEvent, initSys],
    ?_, by simp [handleEvent, initSys]⟩
  simp [advance, nextDue, fireAction, handleEvent, initSys, emptyAudio,
    List.erase]

/-- C5 amended: the `transcription-completed` and `transcription-error`
listeners do not special-case `idle`: delivered in `idle` they move the
machine to `completed` (resp. `error`), schedule the usual 1500 + 400 ms
(resp. 2000 + 400 ms) chain, and invoke `hide_wave_window` exactly once
before returning to `idle`. -/
theorem completed_error_in_idle_run_full_chain :
    (handleEvent .transcriptionCompleted initSys).state = .completed ∧
    (advance 8 1900 (handleEvent .transcriptionCompleted initSys)).state
      = .idle ∧
    (advance 8 1900 (handleEvent .transcriptionCompleted initSys)).hideCount
      = 1 ∧
    (handleEvent .transcriptionError initSys).state = .error ∧
    (advance 8 2400 (handleEvent .transcriptionError initSys)).state
      = .idle ∧
    (advance 8 2400 (handleEvent .transcriptionError initSys)).hideCount
      = 1 := by
  refine ⟨rfl, ?_, ?_, rfl, ?_, ?_⟩ <;>
    simp [advance, nextDue, fireAction, handleEvent, initSys, emptyAudio,
      List.erase]

/-- C6 counterexample: a `transcription-cancelled` event delivered while
the machine is recording does not move it to `leaving`, schedules no
timer, and 350 ms later the machine is still not `idle` — the listener
effect of WaveWindow.tsx registers no handler for this event. -/
theorem cancelled_in_recording_not_leaving :
    (handleEvent .transcriptionCancelled
        { initSys with state := .recording }).state ≠ .leaving ∧
    (handleEvent .transcriptionCancelled
        { initSys with state := .recording }).timers = [] ∧
    (advance 8 350 (handleEvent .transcriptionCancelled
        { initSys with state := .recording })).state ≠ .idle := by
  refine ⟨by simp [handleEvent, initSys], rfl, ?_⟩
  simp [advance, nextDue, fireAction, handleEvent, initSys]

/-- C6 amended: no listener for `transcription-cancelled` is registered,
so delivering it leaves the whole configuration — state, flags, audio
frame, pending timers — unchanged in every state. -/
theorem cancelled_event_ignored (s : Sys) :
    handleEvent .transcriptionCancelled s = s := rfl

/-- C10: when the `transcription-error` chain returns the machine to
`idle`, the stored audio frame and the audio-receiving flag keep their
previous values; the `transcription-completed` chain and the `wave-reset`
handler instead clear the flag and store the empty frame. -/
theorem error_chain_preserves_audio_fields (b : Bool) (d : AudioData) :
    let base : Sys := { now := 0, state := .processing,
                        isReceivingAudio := b, audioData := d,
                        timers := [], hideCount := 0 }
    ((advance 8 2400 (handleEvent .transcriptionError base)).state
        = .idle ∧
      (advance 8 2400 (handleEvent .transcriptionError base)).isReceivingAudio
        = b ∧
      (advance 8 2400 (handleEvent .transcriptionError base)).audioData
        = d) ∧
    ((advance 8 1900 (handleEvent .transcriptionCompleted base)).isReceivingAudio
        = false ∧
      (advance 8 1900 (handleEvent .transcriptionCompleted base)).audioData
        = emptyAudio) ∧
    (∀ s : Sys, (handleEvent .waveReset s).isReceivingAudio = false ∧
      (handleEvent .waveReset s).audioData = emptyAudio) := by
  refine ⟨⟨?_, ?_, ?_⟩, ⟨?_, ?_⟩, fun s => ⟨rfl, rfl⟩⟩ <;>
    simp [advance, nextDue, fireAction, handleEvent, emptyAudio, List.erase]

/-- C3: whenever the in-flight flag is set, `checkForUpdates` issues no
probe and leaves the manager unchanged, returning the cached `UpdateInfo`
when one exists and the in-progress error otherwise; since the only code
path that issues a probe first requires the flag to be clear, at most one
probe is outstanding at a time. -/
theorem checkForUpdates_inFlight (s : UpdateManager) (now : ℕ)
    (probe : Except String UpdateInfo) (h : s.checkInProgress = true) :
    (s.checkForUpdates now probe).2.2 = false ∧
    (s.checkForUpdates now probe).2.1 = s ∧
    (∀ c, s.cachedUpdateInfo = some c →
      (s.checkForUpdates now probe).1 = .ok c) ∧
    (s.cachedUpdateInfo = none →
      (s.checkForUpdates now probe).1 = .inProgressError) := by
  cases hc : s.cachedUpdateInfo <;>
    simp [UpdateManager.checkForUpdates, h, hc]

/-- C3 witness: the in-flight manager with a cached value returns the
cached value, not the fresher probe result. -/
theorem checkForUpdates_inFlight_witness :
    ((⟨true, 0, some sampleInfo⟩ : UpdateManager).checkForUpdates 0
      (.ok sampleInfo2)).1 = .ok sampleInfo :=
  (checkForUpdates_inFlight ⟨true, 0, some sampleInfo⟩ 0
    (.ok sampleInfo2) rfl).2.2.1 sampleInfo rfl

/-- C4: when `checkForUpdates` reaches the probing branch (flag clear and
no cooldown cache hit) it issues the probe; on success it stores the
result and the check timestamp and returns the result, on failure it
propagates the error and keeps the prior cached value, and in both cases
the in-flight flag is clear in the state it leaves behind. -/
theorem checkForUpdates_probe_paths (s : UpdateManager) (now : ℕ)
    (h1 : s.checkInProgress = false)
    (h2 : ¬(now - s.lastCheckTime < CHECK_COOLDOWN ∧
            s.cachedUpdateInfo.isSome)) :
    (∀ probe : Except String UpdateInfo,
      (s.checkForUpdates now probe).2.2 = true ∧
      (s.checkForUpdates now probe).2.1.checkInProgress = false ∧
      (s.checkForUpdates now probe).2.1.lastCheckTime = now) ∧
    (∀ r : UpdateInfo,
      (s.checkForUpdates now (.ok r)).1 = .ok r ∧
      (s.checkForUpdates now (.ok r)).2.1.cachedUpdateInfo = some r) ∧
    (∀ e : String,
      (s.checkForUpdates now (.error e)).1 = .probeError e ∧
      (s.checkForUpdates now (.error e)).2.1.cachedUpdateInfo
        = s.cachedUpdateInfo) := by
  refine ⟨fun probe => ?_, fun r => ?_, fun e => ?_⟩
  · cases probe <;> simp [UpdateManager.checkForUpdates, h1, h2]
  · simp [UpdateManager.checkForUpdates, h1, h2]
  · simp [UpdateManager.checkForUpdates, h1, h2]

/-- C4 witness: from the fresh manager, a successful probe is returned
and cached, and a failed probe propagates while the cache stays empty. -/
theorem checkForUpdates_probe_paths_witness :
    ((UpdateManager.initial.checkForUpdates 0 (.ok sampleInfo)).1
        = .ok sampleInfo ∧
      (UpdateManager.initial.checkForUpdates 0
          (.ok sampleInfo)).2.1.cachedUpdateInfo = some sampleInfo) ∧
    ((UpdateManager.initial.checkForUpdates 0 (.error sampleErr)).1
        = .probeError sampleErr ∧
      (UpdateManager.initial.checkForUpdates 0
          (.error sampleErr)).2.1.cachedUpdateInfo = none) :=
  have h := checkForUpdates_probe_paths UpdateManager.initial 0 rfl
    (by simp [UpdateManager.initial])
  ⟨h.2.1 sampleInfo, (h.2.2 sampleErr).1, (h.2.2 sampleErr).2⟩

/-- C9: with no probe in flight, a cached value, and less than
`CHECK_COOLDOWN = 5000` ms since the last check, `checkForUpdates`
returns the cached value, changes nothing and issues no probe; and any
call made 10000 ms after a prior successful probing check issues a new
probe. -/
theorem checkForUpdates_cooldown_cache_and_recheck (s : UpdateManager)
    (now : ℕ) (probe : Except String UpdateInfo) (c : UpdateInfo)
    (h1 : s.checkInProgress = false) (h2 : s.cachedUpdateInfo = some c)
    (h3 : now - s.lastCheckTime < CHECK_COOLDOWN) :
    s.checkForUpdates now probe = (.ok c, s, false) ∧
    (∀ (s0 : UpdateManager) (now0 : ℕ) (r : UpdateInfo)
        (probe2 : Except String UpdateInfo),
      (s0.checkForUpdates now0 (.ok r)).2.2 = true →
      ((s0.checkForUpdates now0 (.ok r)).2.1.checkForUpdates
          (now0 + 10000) probe2).2.2 = true) := by
  constructor
  · simp [UpdateManager.checkForUpdates, h1, h2, h3]
  · intro s0 now0 r probe2 hprobe
    by_cases hp : s0.checkInProgress = true
    · exfalso
      cases hc : s0.cachedUpdateInfo <;>
        simp [UpdateManager.checkForUpdates, hp, hc] at hprobe
    · rw [Bool.not_eq_true] at hp
      by_cases hcd : now0 - s0.lastCheckTime < CHECK_COOLDOWN ∧
          s0.cachedUpdateInfo.isSome
      · exfalso
        simp [UpdateManager.checkForUpdates, hp, hcd] at hprobe
      · have hfirst : s0.checkForUpdates now0 (.ok r) =
            (.ok r, ⟨false, now0, some r⟩, true) := by
          simp [UpdateManager.checkForUpdates, hp, hcd]
        rw [hfirst]
        cases probe2 <;>
          simp [UpdateManager.checkForUpdates, CHECK_COOLDOWN,
            Nat.add_sub_cancel_left]

/-- C9 witness: a call 100 ms after a check that cached `sampleInfo`
returns the cached value with no probe and no state change. -/
theorem checkForUpdates_cooldown_witness :
    (⟨false, 0, some sampleInfo⟩ : UpdateManager).checkForUpdates 100
      (.ok sampleInfo2) = (.ok sampleInfo, ⟨false, 0, some sampleInfo⟩,
        false) :=
  (checkForUpdates_cooldown_cache_and_recheck ⟨false, 0, some sampleInfo⟩
    100 (.ok sampleInfo2) sampleInfo rfl rfl (by decide)).1

/-- Pointwise agreement between the code's `scaleLevel` and the spec's
clamp-with-deadband formula `specBarHeight`. -/
lemma scaleLevel_eq_specBarHeight (a : ℚ) :
    scaleLevel a = specBarHeight a := by
  simp only [scaleLevel, specBarHeight]
  split_ifs with h1 h2 h2
  · rfl
  · exact absurd h1 (not_lt.mpr (le_min (not_lt.mp h2) (by norm_num)))
  · exact absurd (lt_of_le_of_lt (min_le_left _ _) h2) h1
  · have h0 : (0 : ℚ) ≤ min (a * SENSITIVITY) 1 :=
      le_trans (by norm_num) (le_min (not_lt.mp h2) (by norm_num))
    rw [max_eq_right h0]

/-- Evaluation of the bar heights on eight samples of `0.5`. -/
lemma scaledBars_eight_half :
    scaledBars (List.replicate 8 (1/2)) =
      List.replicate 8 BAR_MAX_HEIGHT ++ List.replicate 2 BAR_MIN_HEIGHT := by
  simp [scaledBars, padSamples, scaleLevel, BAR_COUNT, BAR_MIN_HEIGHT,
    BAR_MAX_HEIGHT, SENSITIVITY, min_def, List.replicate]
  norm_num

/-- C7 counterexample: with `BAR_COUNT = 10`, a frame of eight `0.5`
samples is padded with two zero amplitudes whose bars snap to
`BAR_MIN_HEIGHT`, so not every entry of the bar-height sequence equals
`BAR_MAX_HEIGHT`. -/
theorem eight_half_samples_not_all_max :
    ¬(∀ x ∈ scaledBars (List.replicate 8 (1/2)), x = BAR_MAX_HEIGHT) := by
  intro hall
  have hmem : BAR_MIN_HEIGHT ∈ scaledBars (List.replicate 8 (1/2)) := by
    rw [scaledBars_eight_half]
    simp
  have hx := hall _ hmem
  norm_num [BAR_MIN_HEIGHT, BAR_MAX_HEIGHT] at hx

/-- C7 amended: on eight samples of `0.5` the first eight bar heights
saturate at `BAR_MAX_HEIGHT` and the two entries padded to reach
`BAR_COUNT = 10` equal `BAR_MIN_HEIGHT`. -/
theorem eight_half_samples_bars :
    scaledBars (List.replicate 8 (1/2)) =
      List.replicate 8 BAR_MAX_HEIGHT ++ List.replicate 2 BAR_MIN_HEIGHT :=
  scaledBars_eight_half

/-- C8: for every frame the bar heights are the spec's formula
`BAR_MIN + clamp(a * SENSITIVITY, 0, 1) * (BAR_MAX - BAR_MIN)` with the
below-`0.05` deadband snapping to `BAR_MIN`, applied to the padded
samples; in particular the frame `[0.005]` padded with zeros yields all
bars equal to `BAR_MIN_HEIGHT`. -/
theorem scaledBars_match_spec_formula :
    (∀ samples : List ℚ, scaledBars samples =
      (padSamples samples).map specBarHeight) ∧
    scaledBars [1/200] = List.replicate BAR_COUNT BAR_MIN_HEIGHT := by
  constructor
  · intro samples
    unfold scaledBars
    rw [funext scaleLevel_eq_specBarHeight]
  · simp [scaledBars, padSamples, scaleLevel, BAR_COUNT, BAR_MIN_HEIGHT,
      BAR_MAX_HEIGHT, SENSITIVITY, min_def, List.replicate]
    norm_num
